import Mathlib

/-!
Verification of the recipe-management REST backend (`app/recipe/views.py`,
`app/recipe/serializers.py`) against its natural-language specification.

The entity rows and the viewset/serializer operations are shallowly embedded:
a database is a list of rows per table, each viewset action is a function from
the database, the authenticated caller and the request data to a status code
and a new database.  Framework behaviour that the views rely on is embedded
with its documented semantics: `ModelViewSet` dispatches the six standard
actions, `get_object` looks the `pk` up inside the view's `get_queryset`
result and raises not-found when absent, and a `ModelSerializer` reads and
writes exactly the fields listed in its `Meta.fields` (unknown payload keys
are dropped, `read_only` fields are never written).
-/

namespace RecipeApp

/-- Row of the `Recipe` table (`core.models.Recipe`): surrogate key, owner
reference, scalar fields, optional image file name, and the id sets of the
two many-to-many association tables. -/
structure Recipe where
  id : Nat
  user : Nat
  title : String
  time_minutes : Nat
  price : Int
  link : String
  description : String
  image : Option String
  tags : List Nat
  ingredients : List Nat
deriving Repr, DecidableEq

/-- Row of the `Tag` table: surrogate key, owner reference, name. -/
structure Tag where
  id : Nat
  user : Nat
  name : String
deriving Repr, DecidableEq

/-- Row of the `Ingredient` table: surrogate key, owner reference, name. -/
structure Ingredient where
  id : Nat
  user : Nat
  name : String
deriving Repr, DecidableEq

/-- The relational store: one list of rows per table. -/
structure DB where
  recipes : List Recipe
  tags : List Tag
  ingredients : List Ingredient
deriving Repr, DecidableEq

/-- Ordering `order_by ('-id')` used by `RecipeViewSet.get_queryset`:
descending surrogate key. -/
def recipeIdDesc (a b : Recipe) : Prop := b.id ≤ a.id

instance : DecidableRel recipeIdDesc := fun a b => inferInstanceAs (Decidable (b.id ≤ a.id))

instance : IsTotal Recipe recipeIdDesc := ⟨fun a b => Nat.le_total b.id a.id⟩

instance : IsTrans Recipe recipeIdDesc := ⟨fun _ _ _ hab hbc => Nat.le_trans hbc hab⟩

/-- Ordering `order_by ('-name')` used by `BaseRecipeAttrViewSet.get_queryset`
for tags: descending name. -/
def tagNameDesc (a b : Tag) : Prop := b.name ≤ a.name

instance : DecidableRel tagNameDesc := fun a b => inferInstanceAs (Decidable (b.name ≤ a.name))

instance : IsTotal Tag tagNameDesc := ⟨fun a b => le_total b.name a.name⟩

instance : IsTrans Tag tagNameDesc := ⟨fun _ _ _ hab hbc => le_trans hbc hab⟩

/-- Ordering `order_by ('-name')` for ingredients: descending name. -/
def ingredientNameDesc (a b : Ingredient) : Prop := b.name ≤ a.name

instance : DecidableRel ingredientNameDesc :=
  fun a b => inferInstanceAs (Decidable (b.name ≤ a.name))

instance : IsTotal Ingredient ingredientNameDesc := ⟨fun a b => le_total b.name a.name⟩

instance : IsTrans Ingredient ingredientNameDesc := ⟨fun _ _ _ hab hbc => le_trans hbc hab⟩

/-- `RecipeViewSet.get_queryset` (views.py): return
`self.queryset.filter (user = self.request.user).order_by ('-id')` —
the caller's recipes, newest surrogate key first.  The method reads nothing
from the request besides the authenticated user. -/
def recipeGetQueryset (db : DB) (caller : Nat) : List Recipe :=
  List.insertionSort recipeIdDesc (db.recipes.filter (fun r => r.user == caller))

/-- Query string of a recipe list request: the raw `tags` and `ingredients`
parameters, each a comma-separated id list when present. -/
structure RecipeListQuery where
  tags : Option String
  ingredients : Option String
deriving Repr, DecidableEq

/-- The `list` action of `RecipeViewSet`: the framework serves the
`get_queryset` result.  The view overrides neither `list` nor `filter_queryset`
and `get_queryset` never reads `self.request.query_params`, so the `tags` and
`ingredients` query parameters do not influence the result. -/
def recipeListAction (db : DB) (caller : Nat) (_q : RecipeListQuery) : List Recipe :=
  recipeGetQueryset db caller

/-- `get_object` as the framework runs it for detail routes: look the url's
`pk` up inside the view's `get_queryset` result; absence means not-found. -/
def getObject (db : DB) (caller : Nat) (rid : Nat) : Option Recipe :=
  (recipeGetQueryset db caller).find? (fun r => r.id == rid)

/-- Request body of a recipe create/update call, one optional entry per key
the client may send.  `user` and `id` model a client trying to set the owner
or the surrogate key; `tags`/`ingredients` carry the inline name lists. -/
structure RecipePayload where
  id : Option Nat
  title : Option String
  time_minutes : Option Nat
  price : Option Int
  link : Option String
  description : Option String
  user : Option Nat
  tags : Option (List String)
  ingredients : Option (List String)
deriving Repr, DecidableEq

/-- Writing a validated payload onto an existing row, as the
`ModelSerializer` generated for `RecipeDetailSerializer` (serializers.py)
does: only the declared writable fields `title`, `time_minutes`, `price`,
`link`, `description` are set when present.  `id` is in `read_only_fields`;
`user`, `tags` and `ingredients` are not in `Meta.fields` at all, so those
payload keys are dropped and the corresponding columns and association rows
are untouched. -/
def applyPayload (r : Recipe) (p : RecipePayload) : Recipe :=
  { r with
    title := p.title.getD r.title
    time_minutes := p.time_minutes.getD r.time_minutes
    price := p.price.getD r.price
    link := p.link.getD r.link
    description := p.description.getD r.description }

/-- Fresh surrogate key for an insert: one past the largest key in the table. -/
def nextRecipeId (db : DB) : Nat :=
  (db.recipes.foldr (fun r m => max r.id m) 0) + 1

/-- The `create` action: `perform_create` (views.py) runs
`serializer.save (user = self.request.user)`, so the new row's owner is the
authenticated caller whatever the payload said.  The serializer writes only
its declared fields (see `applyPayload`); in particular the `tags` and
`ingredients` payload keys are not fields of `RecipeSerializer` in
serializers.py, so no association rows are written.  Returns the status,
the new store and the created row. -/
def recipeCreateAction (db : DB) (caller : Nat) (p : RecipePayload) : Nat × DB × Recipe :=
  let r : Recipe :=
    { id := nextRecipeId db
      user := caller
      title := p.title.getD ""
      time_minutes := p.time_minutes.getD 0
      price := p.price.getD 0
      link := p.link.getD ""
      description := p.description.getD ""
      image := none
      tags := []
      ingredients := [] }
  (201, { db with recipes := db.recipes ++ [r] }, r)

/-- The `retrieve` action: `get_object` then serialize, not-found when the
`pk` is outside the caller's queryset. -/
def recipeRetrieveAction (db : DB) (caller : Nat) (rid : Nat) : Nat × Option Recipe :=
  match getObject db caller rid with
  | none => (404, none)
  | some r => (200, some r)

/-- The `update` / `partial_update` actions: `get_object`, then the
serializer writes the payload onto the found row (see `applyPayload`);
not-found when the `pk` is outside the caller's queryset, leaving the store
untouched. -/
def recipeUpdateAction (db : DB) (caller : Nat) (rid : Nat) (p : RecipePayload) : Nat × DB :=
  match getObject db caller rid with
  | none => (404, db)
  | some _ =>
      (200,
        { db with
          recipes := db.recipes.map
            (fun r => if r.id == rid && r.user == caller then applyPayload r p else r) })

/-- The `destroy` action: `get_object` then delete the row; not-found when
the `pk` is outside the caller's queryset, leaving the store untouched. -/
def recipeDestroyAction (db : DB) (caller : Nat) (rid : Nat) : Nat × DB :=
  match getObject db caller rid with
  | none => (404, db)
  | some _ =>
      (204,
        { db with
          recipes := db.recipes.filter (fun r => !(r.id == rid && r.user == caller)) })

/-- `Meta.fields` of `RecipeSerializer` (serializers.py). -/
def recipeSerializerFields : List String :=
  ["id", "title", "time_minutes", "price", "link"]

/-- `Meta.read_only_fields` of `RecipeSerializer` (serializers.py). -/
def recipeSerializerReadOnlyFields : List String := ["id"]

/-- `Meta.fields` of `RecipeDetailSerializer` (serializers.py):
`RecipeSerializer.Meta.fields + ['description']`. -/
def recipeDetailSerializerFields : List String :=
  recipeSerializerFields ++ ["description"]

/-- The two serializer classes the recipe viewset chooses between. -/
inductive SerializerClass where
  | recipeSerializer
  | recipeDetailSerializer
deriving Repr, DecidableEq

/-- Field list of each serializer class. -/
def serializerClassFields : SerializerClass → List String
  | .recipeSerializer => recipeSerializerFields
  | .recipeDetailSerializer => recipeDetailSerializerFields

/-- Class attribute `serializer_class = RecipeDetailSerializer` of
`RecipeViewSet` (views.py); each request starts from it. -/
def recipeViewSetSerializerClass : SerializerClass := .recipeDetailSerializer

/-- `RecipeViewSet.get_serializer_class` (views.py): when the action is
`list` switch to the summary `RecipeSerializer`, otherwise return the class
attribute `RecipeDetailSerializer`. -/
def getSerializerClass (action : String) : SerializerClass :=
  if action == "list" then .recipeSerializer else recipeViewSetSerializerClass

/-- List representation of a recipe produced by `RecipeSerializer`. -/
structure RecipeListItem where
  id : Nat
  title : String
  time_minutes : Nat
  price : Int
  link : String
deriving Repr, DecidableEq

/-- Detail representation of a recipe produced by `RecipeDetailSerializer`. -/
structure RecipeDetailItem where
  id : Nat
  title : String
  time_minutes : Nat
  price : Int
  link : String
  description : String
deriving Repr, DecidableEq

/-- Serializing a row with `RecipeSerializer`: project exactly the
`Meta.fields` columns. -/
def serializeListItem (r : Recipe) : RecipeListItem :=
  { id := r.id
    title := r.title
    time_minutes := r.time_minutes
    price := r.price
    link := r.link }

/-- Serializing a row with `RecipeDetailSerializer`: the list projection plus
`description`. -/
def serializeDetailItem (r : Recipe) : RecipeDetailItem :=
  { id := r.id
    title := r.title
    time_minutes := r.time_minutes
    price := r.price
    link := r.link
    description := r.description }

/-- Actions a `ModelViewSet` routes by default. -/
def modelViewSetActions : List String :=
  ["list", "create", "retrieve", "update", "partial_update", "destroy"]

/-- Extra routes declared with the `@action` decorator on `RecipeViewSet` in
views.py: the class body holds only `get_queryset`, `get_serializer_class`
and `perform_create`, so there are none. -/
def recipeViewSetExtraActions : List String := []

/-- Every action the router exposes for `RecipeViewSet`: the `ModelViewSet`
defaults plus the declared extra actions. -/
def recipeViewSetActions : List String :=
  modelViewSetActions ++ recipeViewSetExtraActions

/-- Actions contributed by `mixins.UpdateModelMixin`. -/
def updateModelMixinActions : List String := ["update", "partial_update"]

/-- Actions contributed by `mixins.ListModelMixin`. -/
def listModelMixinActions : List String := ["list"]

/-- Actions contributed by `mixins.DestroyModelMixin`. -/
def destroyModelMixinActions : List String := ["destroy"]

/-- Actions of `BaseRecipeAttrViewSet` (views.py), the base of `TagViewSet`
and `IngredientViewSet`: the class extends `UpdateModelMixin`,
`ListModelMixin`, `DestroyModelMixin` and `GenericViewSet` — neither
`RetrieveModelMixin` nor `CreateModelMixin` is mixed in. -/
def baseRecipeAttrActions : List String :=
  updateModelMixinActions ++ listModelMixinActions ++ destroyModelMixinActions

/-- `BaseRecipeAttrViewSet.get_queryset` for `TagViewSet`:
`self.queryset.filter (user = self.request.user).order_by ('-name')`. -/
def tagGetQueryset (db : DB) (caller : Nat) : List Tag :=
  List.insertionSort tagNameDesc (db.tags.filter (fun t => t.user == caller))

/-- `BaseRecipeAttrViewSet.get_queryset` for `IngredientViewSet`. -/
def ingredientGetQueryset (db : DB) (caller : Nat) : List Ingredient :=
  List.insertionSort ingredientNameDesc (db.ingredients.filter (fun i => i.user == caller))

/-! Concrete fixtures, following the repository's own test data
(`tests/test_recipe_api.py`). -/

/-- Recipe of user 1 associated with tag 1 (`test_filter_recipe_by_tags`). -/
def pizzaRecipe : Recipe :=
  { id := 1, user := 1, title := "7 Cheese Pizza", time_minutes := 22, price := 525,
    link := "", description := "", image := none, tags := [1], ingredients := [] }

/-- Recipe of user 1 associated with tag 2. -/
def manchurianRecipe : Recipe :=
  { id := 2, user := 1, title := "Manchurian Dry", time_minutes := 22, price := 525,
    link := "", description := "", image := none, tags := [2], ingredients := [] }

/-- Recipe of user 1 with no tag association at all. -/
def friedRiceRecipe : Recipe :=
  { id := 3, user := 1, title := "Veg Fried Rice", time_minutes := 22, price := 525,
    link := "", description := "", image := none, tags := [], ingredients := [] }

/-- Store for the tag-filtering scenario: three recipes of user 1, two tags. -/
def filterDb : DB :=
  { recipes := [pizzaRecipe, manchurianRecipe, friedRiceRecipe],
    tags := [⟨1, 1, "Italian"⟩, ⟨2, 1, "Chinese"⟩], ingredients := [] }

/-- Recipe 1 owned by user 1, used for the cross-user scenario. -/
def ownedRecipe : Recipe :=
  { id := 1, user := 1, title := "Sample recipe title", time_minutes := 22, price := 525,
    link := "", description := "Sample Description", image := none, tags := [], ingredients := [] }

/-- Store holding only user 1's recipe. -/
def ownedDb : DB := { recipes := [ownedRecipe], tags := [], ingredients := [] }

/-- Update payload user 2 sends against user 1's recipe, also trying to grab
ownership. -/
def takeoverPayload : RecipePayload :=
  { id := none, title := some "Updated Recipe Title", time_minutes := none, price := none,
    link := none, description := none, user := some 2, tags := none, ingredients := none }

/-- The pre-existing `Tag (user = 1, name = Indian)` of
`test_create_recipe_with_existing_tags`. -/
def indianTag : Tag := ⟨1, 1, "Indian"⟩

/-- Store with no recipes and the one existing tag of user 1. -/
def tagDb : DB := { recipes := [], tags := [indianTag], ingredients := [] }

/-- Create payload carrying inline tag names, one of which matches the
existing tag of the owner. -/
def tagPayload : RecipePayload :=
  { id := none, title := some "Peri Peri Paneer Indian Masala Sandwich",
    time_minutes := some 22, price := some 725, link := none, description := none,
    user := none, tags := some ["Indian", "Lunch"], ingredients := none }

/-- The `Tag (user = 1, name = Coffee Category)` of `test_clear_recipe_tags`. -/
def coffeeTag : Tag := ⟨5, 1, "Coffee Category"⟩

/-- Recipe of user 1 associated with tag 5. -/
def taggedRecipe : Recipe :=
  { id := 1, user := 1, title := "Sample recipe title", time_minutes := 22, price := 525,
    link := "", description := "", image := none, tags := [5], ingredients := [] }

/-- Store for the clear-tags scenario. -/
def clearDb : DB := { recipes := [taggedRecipe], tags := [coffeeTag], ingredients := [] }

/-- Partial-update payload whose `tags` key holds the empty list. -/
def clearPayload : RecipePayload :=
  { id := none, title := none, time_minutes := none, price := none, link := none,
    description := none, user := none, tags := some [], ingredients := none }

/-! Helper lemmas shared by several claims. -/

/-- Membership in the recipe queryset: exactly the stored recipes whose owner
is the caller. -/
theorem mem_recipeGetQueryset {db : DB} {u : Nat} {r : Recipe} :
    r ∈ recipeGetQueryset db u ↔ r ∈ db.recipes ∧ r.user = u := by
  unfold recipeGetQueryset
  rw [List.mem_insertionSort, List.mem_filter]
  simp

/-- When every stored recipe carrying the requested id belongs to `a`, a
different caller's `get_object` lookup comes back empty. -/
theorem getObject_none_of_other_owner {db : DB} {a b rid : Nat}
    (hOwn : ∀ r ∈ db.recipes, r.id = rid → r.user = a) (hab : a ≠ b) :
    getObject db b rid = none := by
  unfold getObject
  rw [List.find?_eq_none]
  intro r hr
  have hm := mem_recipeGetQueryset.mp hr
  simp only [beq_iff_eq]
  intro hid
  exact hab (by rw [← hOwn r hm.1 hid, hm.2])

/-- Rewriting a row through the serializer never touches the owner column. -/
theorem map_user_after_update (l : List Recipe) (p : RecipePayload) (c rid : Nat) :
    (l.map (fun r => if r.id == rid && r.user == c then applyPayload r p else r)).map
        Recipe.user =
      l.map Recipe.user := by
  induction l with
  | nil => rfl
  | cons a t ih =>
      simp only [List.map_cons, ih]
      split <;> rfl

/-! The claims. -/

/-- C1: the spec says a list request with `tags=1,2` returns exactly the
caller's recipes having at least one of those tag associations.  Refuted:
`RecipeViewSet.get_queryset` never reads the query parameters, so the recipe
with no tag association at all is still returned. -/
theorem c1_tag_filter_ignored :
    recipeListAction filterDb 1 { tags := some "1,2", ingredients := none } =
      [friedRiceRecipe, manchurianRecipe, pizzaRecipe] ∧
    friedRiceRecipe.tags = [] := by decide

/-- C2: for a recipe owned by `a`, any other caller `b` gets 404 from
retrieve, update/partial-update and delete, and the store — the recipe
included — is left exactly as it was, because `get_object` looks the id up
inside `b`'s own scoped queryset. -/
theorem c2_cross_user_requests_404 (db : DB) (a b rid : Nat) (p : RecipePayload)
    (hOwn : ∀ r ∈ db.recipes, r.id = rid → r.user = a) (hab : a ≠ b) :
    recipeRetrieveAction db b rid = (404, none) ∧
    recipeUpdateAction db b rid p = (404, db) ∧
    recipeDestroyAction db b rid = (404, db) := by
  have h := getObject_none_of_other_owner hOwn hab
  refine ⟨?_, ?_, ?_⟩ <;>
    simp [recipeRetrieveAction, recipeUpdateAction, recipeDestroyAction, h]

/-- Witness for C2 at the concrete cross-user fixture: user 2 against user
1's recipe 1. -/
theorem c2_cross_user_requests_404_witness :
    recipeRetrieveAction ownedDb 2 1 = (404, none) ∧
    recipeUpdateAction ownedDb 2 1 takeoverPayload = (404, ownedDb) ∧
    recipeDestroyAction ownedDb 2 1 = (404, ownedDb) :=
  c2_cross_user_requests_404 ownedDb 1 2 1 takeoverPayload (by decide) (by decide)

/-- C3: the list action returns exactly the caller's recipes, whatever other
users own, sorted by descending surrogate key. -/
theorem c3_list_exactly_callers_recipes_desc (db : DB) (u : Nat) (q : RecipeListQuery) :
    (∀ r : Recipe, r ∈ recipeListAction db u q ↔ r ∈ db.recipes ∧ r.user = u) ∧
    List.Sorted recipeIdDesc (recipeListAction db u q) :=
  ⟨fun _ => mem_recipeGetQueryset, List.sorted_insertionSort recipeIdDesc _⟩

/-- C4: ownership is set at create time to the authenticated caller whatever
the payload's `user` entry says, the serializer leaves the owner column of an
existing row untouched, and an update request changes no stored row's owner. -/
theorem c4_owner_immutable (db : DB) (caller rid : Nat) (p : RecipePayload) (r : Recipe) :
    (recipeCreateAction db caller p).2.2.user = caller ∧
    (applyPayload r p).user = r.user ∧
    (recipeUpdateAction db caller rid p).2.recipes.map Recipe.user =
      db.recipes.map Recipe.user := by
  refine ⟨rfl, rfl, ?_⟩
  unfold recipeUpdateAction
  cases getObject db caller rid with
  | none => rfl
  | some r0 => exact map_user_after_update db.recipes p caller rid

/-- C5: the spec says inline tag names are resolved by (owner, name) and the
existing tag gets associated.  Refuted: `RecipeSerializer` in serializers.py
declares no `tags` field, so the payload key is dropped — the create succeeds
with 201 but the new recipe carries zero tag associations (its own tests
expect two), and no tag row is written either. -/
theorem c5_inline_tags_dropped :
    (recipeCreateAction tagDb 1 tagPayload).1 = 201 ∧
    (recipeCreateAction tagDb 1 tagPayload).2.2.tags = [] ∧
    (recipeCreateAction tagDb 1 tagPayload).2.1.tags = [indianTag] := by decide

/-- C6: the spec says an update payload with `tags := []` clears every tag
association.  Refuted: the `tags` key is not a serializer field, so the
update returns 200 while the recipe keeps its association with tag 5. -/
theorem c6_clear_tags_ignored :
    (recipeUpdateAction clearDb 1 1 clearPayload).1 = 200 ∧
    (recipeUpdateAction clearDb 1 1 clearPayload).2.recipes.map Recipe.tags = [[5]] := by
  decide

/-- C7: the spec describes a dedicated upload-image action returning 201 for
a valid image and 400 for a non-image.  Refuted: `RecipeViewSet` in views.py
declares no extra action, so no `upload-image` route exists and such requests
cannot reach any handler. -/
theorem c7_no_upload_image_action :
    recipeViewSetExtraActions = [] ∧ "upload_image" ∉ recipeViewSetActions := by decide

/-- C8: the list representation projects exactly id, title, time_minutes,
price and link; the detail representation adds exactly description; id is
read-only, so neither an update payload nor a create payload can alter the
stored identity. -/
theorem c8_field_projections (db : DB) (caller : Nat) (r : Recipe) (p : RecipePayload) :
    serializeListItem r =
      { id := r.id, title := r.title, time_minutes := r.time_minutes,
        price := r.price, link := r.link } ∧
    serializeDetailItem r =
      { id := r.id, title := r.title, time_minutes := r.time_minutes,
        price := r.price, link := r.link, description := r.description } ∧
    recipeDetailSerializerFields = recipeSerializerFields ++ ["description"] ∧
    "id" ∈ recipeSerializerReadOnlyFields ∧
    (applyPayload r p).id = r.id ∧
    (recipeCreateAction db caller p).2.2.id = nextRecipeId db :=
  ⟨rfl, rfl, rfl, by decide, rfl, rfl⟩

/-- C9 counterexample: the claim lists GET (retrieve one entity) among the
operations of `/tags/{id}/` and `/ingredients/{id}/`, but
`BaseRecipeAttrViewSet` does not mix `RetrieveModelMixin` in, so no retrieve
action exists. -/
theorem c9_retrieve_unsupported : "retrieve" ∉ baseRecipeAttrActions := by decide

/-- C9 amended: the attribute endpoints support update, partial update and
delete (plus collection-level list) under the caller-scoped queryset, but
not single-object GET retrieve. -/
theorem c9_attr_endpoint_actions (db : DB) (u : Nat) :
    "update" ∈ baseRecipeAttrActions ∧
    "partial_update" ∈ baseRecipeAttrActions ∧
    "destroy" ∈ baseRecipeAttrActions ∧
    "list" ∈ baseRecipeAttrActions ∧
    "retrieve" ∉ baseRecipeAttrActions ∧
    (∀ t : Tag, t ∈ tagGetQueryset db u ↔ t ∈ db.tags ∧ t.user = u) ∧
    (∀ i : Ingredient, i ∈ ingredientGetQueryset db u ↔ i ∈ db.ingredients ∧ i.user = u) := by
  refine ⟨by decide, by decide, by decide, by decide, by decide, ?_, ?_⟩
  · intro t
    unfold tagGetQueryset
    rw [List.mem_insertionSort, List.mem_filter]
    simp
  · intro i
    unfold ingredientGetQueryset
    rw [List.mem_insertionSort, List.mem_filter]
    simp

/-- C10: the detail serializer is selected for every action except `list`,
so exactly the non-list responses carry the description field. -/
theorem c10_detail_serializer_unless_list (a : String) :
    (getSerializerClass a = SerializerClass.recipeDetailSerializer ↔ a ≠ "list") ∧
    ("description" ∈ serializerClassFields (getSerializerClass a) ↔ a ≠ "list") := by
  by_cases h : a = "list"
  · subst h
    exact ⟨by decide, by decide⟩
  · have hb : (a == "list") = false := by simp [h]
    have hdesc : "description" ∈ recipeDetailSerializerFields := by decide
    constructor
    · simp [getSerializerClass, hb, recipeViewSetSerializerClass, h]
    · simp [getSerializerClass, hb, recipeViewSetSerializerClass, serializerClassFields, h,
        hdesc]

end RecipeApp
